import Mathlib

/-!
Verification of the go-web-server repository (src/main.go): a minimal HTTP
server with one endpoint (`/hello`), a recovery middleware and an access-log
middleware, composed in `main` and bound to a listener.

The Go program is shallowly embedded: handlers become functions from a
request and a response-writer state to an effect record (final writer state,
log lines, stdout lines, and an optional propagating runtime fault), and
`encoding/json` marshalling of the `response` struct is modelled at the
character level, including Go's string escaping and the `omitempty` tags.
-/

namespace GoWebServer

/-! ## JSON string escaping, as performed by Go encoding/json -/

/-- Lower-case hex digit, as used by Go encoding/json (`"0123456789abcdef"`). -/
def hexDigitChar (n : Nat) : Char :=
  if n < 10 then Char.ofNat ('0'.toNat + n) else Char.ofNat ('a'.toNat + (n - 10))

/-- Escaping of one character inside a JSON string literal, following Go
encoding/json `appendString` with its default HTML escaping: quote and
backslash get two-character escapes, as do newline, carriage return and tab;
other control characters become `\u00XX`; the HTML characters lower-than,
greater-than and ampersand become `<`, `>`, `&`; the line
separators U+2028 and U+2029 become ` ` and ` `; everything else is
emitted literally.  (Invalid UTF-8 replacement does not arise here because a
Lean `Char` is always a valid scalar value.) -/
def escapeChar (c : Char) : List Char :=
  if c = '"' then ['\\', '"']
  else if c = '\\' then ['\\', '\\']
  else if c = '\n' then ['\\', 'n']
  else if c = '\r' then ['\\', 'r']
  else if c = '\t' then ['\\', 't']
  else if c.toNat < 0x20 then
    ['\\', 'u', '0', '0', hexDigitChar (c.toNat / 16), hexDigitChar (c.toNat % 16)]
  else if c = '<' ∨ c = '>' ∨ c = '&' then
    ['\\', 'u', '0', '0', hexDigitChar (c.toNat / 16), hexDigitChar (c.toNat % 16)]
  else if c.toNat = 0x2028 ∨ c.toNat = 0x2029 then
    ['\\', 'u', '2', '0', '2', hexDigitChar (c.toNat % 16)]
  else [c]

/-- Escape a whole character sequence. -/
def escapeJSONChars : List Char → List Char
  | [] => []
  | c :: cs => escapeChar c ++ escapeJSONChars cs

/-- A JSON string literal for `s`: quote, escaped contents, quote. -/
def quoteJSONChars (s : String) : List Char :=
  '"' :: (escapeJSONChars s.data ++ ['"'])

/-- The `response` struct of src/main.go (lines 104-107): two string fields
with JSON tags `data,omitempty` and `error,omitempty`. -/
structure response where
  Data : String := ""
  Error : String := ""
deriving DecidableEq, Repr

/-- The characters `"data":` of the serialized data field's key. -/
def dataKeyChars : List Char := ['"', 'd', 'a', 't', 'a', '"', ':']

/-- The characters `"error":` of the serialized error field's key. -/
def errorKeyChars : List Char := ['"', 'e', 'r', 'r', 'o', 'r', '"', ':']

/-- `json.Marshal` of a `response` value, at the character level: fields are
emitted in struct order (`Data` then `Error`), and `omitempty` suppresses a
field whose value is the empty string. -/
def marshalResponseChars (v : response) : List Char :=
  let fields : List (List Char) :=
    (if v.Data = "" then [] else [dataKeyChars ++ quoteJSONChars v.Data]) ++
    (if v.Error = "" then [] else [errorKeyChars ++ quoteJSONChars v.Error])
  '{' :: (List.intercalate [','] fields ++ ['}'])

/-- `json.Marshal` of a `response` value, as a string. -/
def marshalResponse (v : response) : String :=
  String.mk (marshalResponseChars v)

/-! ## JSON parsing (the inverse direction, modelling `json.Unmarshal` into
the `response` struct) -/

/-- Value of a hex digit character, if any. -/
def hexVal (c : Char) : Option Nat :=
  if '0' ≤ c ∧ c ≤ '9' then some (c.toNat - '0'.toNat)
  else if 'a' ≤ c ∧ c ≤ 'f' then some (c.toNat - 'a'.toNat + 10)
  else if 'A' ≤ c ∧ c ≤ 'F' then some (c.toNat - 'A'.toNat + 10)
  else none

/-- Decode one escape sequence: `e` is the character following the
backslash, `rs` the input after it; returns the decoded character and the
remaining input. -/
def decodeEscape (e : Char) (rs : List Char) : Option (Char × List Char) :=
  if e = '"' then some ('"', rs)
  else if e = '\\' then some ('\\', rs)
  else if e = '/' then some ('/', rs)
  else if e = 'n' then some ('\n', rs)
  else if e = 'r' then some ('\r', rs)
  else if e = 't' then some ('\t', rs)
  else if e = 'b' then some ('\x08', rs)
  else if e = 'f' then some ('\x0c', rs)
  else if e = 'u' then
    match rs with
    | h1 :: h2 :: h3 :: h4 :: rs2 =>
      match hexVal h1, hexVal h2, hexVal h3, hexVal h4 with
      | some a, some b, some c2, some d =>
        some (Char.ofNat (a * 4096 + b * 256 + c2 * 16 + d), rs2)
      | _, _, _, _ => none
    | _ => none
  else none

/-- Scan the inside of a JSON string literal up to its closing quote,
decoding escape sequences; returns the decoded characters and the remaining
input.  `acc` holds the decoded prefix in reverse.  `fuel` bounds the number
of scanning steps; every step consumes at least one input character, so the
input length suffices. -/
def unescapeAux : Nat → List Char → List Char → Option (List Char × List Char)
  | 0, _, _ => none
  | fuel + 1, input, acc =>
    match input with
    | [] => none
    | c :: rest =>
      if c = '"' then some (acc.reverse, rest)
      else if c = '\\' then
        match rest with
        | [] => none
        | e :: rs =>
          match decodeEscape e rs with
          | none => none
          | some (d, rs2) => unescapeAux fuel rs2 (d :: acc)
      else unescapeAux fuel rest (c :: acc)

/-- Parse a JSON string literal (opening quote onward). -/
def parseStringLit (input : List Char) : Option (List Char × List Char) :=
  match input with
  | '"' :: rest => unescapeAux (rest.length + 1) rest []
  | _ => none

/-- Parse the members of a JSON object after the opening brace (at least one
member; the empty object is handled by the caller), recording into a
`response` the values of the keys `data` and `error` (later duplicates win,
as for `json.Unmarshal`) and collecting the list of keys seen.  Only string
values occur, since both struct fields are strings.  `fuel` bounds the number
of members; the callers pass the input length, which suffices because every
member consumes at least one character. -/
def parseMembers : Nat → List Char → response → List String →
    Option (response × List String × List Char)
  | 0, _, _, _ => none
  | fuel + 1, input, acc, keys =>
    match parseStringLit input with
    | none => none
    | some (key, rest1) =>
      match rest1 with
      | ':' :: rest2 =>
        match parseStringLit rest2 with
        | none => none
        | some (val, rest3) =>
          let k := String.mk key
          let acc2 := if k = "data" then { acc with Data := String.mk val }
                      else if k = "error" then { acc with Error := String.mk val }
                      else acc
          let keys2 := keys ++ [k]
          match rest3 with
          | ',' :: rest4 => parseMembers fuel rest4 acc2 keys2
          | '}' :: rest4 => some (acc2, keys2, rest4)
          | _ => none
      | _ => none

/-- `json.Unmarshal` of a byte string into a `response` value: an object
whose `data` and `error` members (both strings) populate the fields; the
whole input must be consumed. -/
def unmarshalResponse (s : String) : Option response :=
  match s.data with
  | [] => none
  | c :: rest =>
    if c = '{' then
      if rest = ['}'] then some {}
      else
        match parseMembers (rest.length + 1) rest {} [] with
        | some (v, _, []) => some v
        | _ => none
    else none

/-- The list of member keys of a serialized JSON object, read by the same
parse as `unmarshalResponse`. -/
def jsonKeys (s : String) : Option (List String) :=
  match s.data with
  | [] => none
  | c :: rest =>
    if c = '{' then
      if rest = ['}'] then some []
      else
        match parseMembers (rest.length + 1) rest {} [] with
        | some (_, keys, []) => some keys
        | _ => none
    else none

/-! ## Round-trip lemmas: unescaping inverts escaping -/

theorem mk_data (s : String) : String.mk s.data = s := rfl

theorem hexVal_hexDigitChar (n : Nat) (h : n < 16) :
    hexVal (hexDigitChar n) = some n := by
  have key : ∀ m, m < 16 → hexVal (hexDigitChar m) = some m := by decide
  exact key n h

theorem unescape_step (c : Char) (f : Nat) (tail acc : List Char) :
    unescapeAux (f + 1) (escapeChar c ++ tail) acc = unescapeAux f tail (c :: acc) := by
  unfold escapeChar
  split_ifs with h1 h2 h3 h4 h5 h6 h7 h8
  · subst h1; rw [unescapeAux.eq_def]; simp [decodeEscape]
  · subst h2; rw [unescapeAux.eq_def]; simp [decodeEscape]
  · subst h3; rw [unescapeAux.eq_def]; simp [decodeEscape]
  · subst h4; rw [unescapeAux.eq_def]; simp [decodeEscape]
  · subst h5; rw [unescapeAux.eq_def]; simp [decodeEscape]
  · have hd : c.toNat / 16 < 16 := by omega
    have hm : c.toNat % 16 < 16 := by omega
    have hv : Char.ofNat (c.toNat / 16 * 16 + c.toNat % 16) = c := by
      rw [show (c.toNat / 16 * 16 + c.toNat % 16 : Nat) = c.toNat
        from by omega, Char.ofNat_toNat]
    rw [unescapeAux.eq_def]
    simp [decodeEscape, hexVal_hexDigitChar _ hd, hexVal_hexDigitChar _ hm,
      show hexVal '0' = some 0 from by decide]
    rw [hv]
  · have hb : c.toNat < 256 := by rcases h7 with h | h | h <;> subst h <;> decide
    have hd : c.toNat / 16 < 16 := by omega
    have hm : c.toNat % 16 < 16 := by omega
    have hv : Char.ofNat (c.toNat / 16 * 16 + c.toNat % 16) = c := by
      rw [show (c.toNat / 16 * 16 + c.toNat % 16 : Nat) = c.toNat
        from by omega, Char.ofNat_toNat]
    rw [unescapeAux.eq_def]
    simp [decodeEscape, hexVal_hexDigitChar _ hd, hexVal_hexDigitChar _ hm,
      show hexVal '0' = some 0 from by decide]
    rw [hv]
  · have hm : c.toNat % 16 < 16 := by omega
    have hv : Char.ofNat (2 * 4096 + 0 * 256 + 2 * 16 + c.toNat % 16) = c := by
      rw [show (2 * 4096 + 0 * 256 + 2 * 16 + c.toNat % 16 : Nat) = c.toNat
        from by rcases h8 with h | h <;> omega, Char.ofNat_toNat]
    rw [unescapeAux.eq_def]
    simp [decodeEscape, hexVal_hexDigitChar _ hm,
      show hexVal '0' = some 0 from by decide,
      show hexVal '2' = some 2 from by decide, hv]
  · rw [unescapeAux.eq_def]; simp [h1, h2]

theorem unescape_escapeJSON (cs : List Char) :
    ∀ (f : Nat) (rest acc : List Char), cs.length < f →
      unescapeAux f (escapeJSONChars cs ++ '"' :: rest) acc
        = some (acc.reverse ++ cs, rest) := by
  induction cs with
  | nil =>
    intro f rest acc hf
    obtain ⟨f', rfl⟩ : ∃ f', f = f' + 1 := ⟨f - 1, by omega⟩
    rw [escapeJSONChars, List.nil_append, unescapeAux.eq_def]
    simp
  | cons c cs ih =>
    intro f rest acc hf
    obtain ⟨f', rfl⟩ : ∃ f', f = f' + 1 := ⟨f - 1, by omega⟩
    rw [escapeJSONChars, List.append_assoc, unescape_step,
      ih f' rest (c :: acc) (by simpa using Nat.lt_of_succ_lt_succ hf)]
    simp

theorem escapeChar_length_pos (c : Char) : 1 ≤ (escapeChar c).length := by
  unfold escapeChar; split_ifs <;> simp

theorem length_le_escapeJSON (cs : List Char) :
    cs.length ≤ (escapeJSONChars cs).length := by
  induction cs with
  | nil => simp [escapeJSONChars]
  | cons c cs ih =>
    rw [escapeJSONChars]
    have := escapeChar_length_pos c
    simp only [List.length_append, List.length_cons]
    omega

theorem parseStringLit_escaped (cs rest : List Char) :
    parseStringLit ('"' :: (escapeJSONChars cs ++ '"' :: rest)) = some (cs, rest) := by
  rw [parseStringLit]
  have hlen : cs.length < (escapeJSONChars cs ++ '"' :: rest).length + 1 := by
    have := length_le_escapeJSON cs
    simp only [List.length_append, List.length_cons]
    omega
  rw [unescape_escapeJSON cs _ rest [] hlen]
  simp

theorem parseStringLit_dataKey (X : List Char) :
    parseStringLit ('"' :: 'd' :: 'a' :: 't' :: 'a' :: '"' :: X)
      = some (['d', 'a', 't', 'a'], X) := by
  have h : escapeJSONChars ['d', 'a', 't', 'a'] = ['d', 'a', 't', 'a'] := by decide
  simpa [h] using parseStringLit_escaped ['d', 'a', 't', 'a'] X

theorem parseStringLit_errorKey (X : List Char) :
    parseStringLit ('"' :: 'e' :: 'r' :: 'r' :: 'o' :: 'r' :: '"' :: X)
      = some (['e', 'r', 'r', 'o', 'r'], X) := by
  have h : escapeJSONChars ['e', 'r', 'r', 'o', 'r'] = ['e', 'r', 'r', 'o', 'r'] := by decide
  simpa [h] using parseStringLit_escaped ['e', 'r', 'r', 'o', 'r'] X

theorem parseMembers_singleData (f : Nat) (d : String) :
    parseMembers (f + 1) (dataKeyChars ++ quoteJSONChars d ++ ['}']) {} []
      = some ({ Data := d }, ["data"], []) := by
  rw [parseMembers]
  have hkey := parseStringLit_dataKey (':' :: (quoteJSONChars d ++ ['}']))
  have hval := parseStringLit_escaped d.data ['}']
  simp only [dataKeyChars, quoteJSONChars, List.cons_append, List.nil_append,
    List.append_assoc] at hkey hval ⊢
  rw [hkey]
  simp only [List.singleton_append] at hval ⊢
  rw [hval]
  simp [mk_data]

theorem parseMembers_singleError (f : Nat) (e : String) :
    parseMembers (f + 1) (errorKeyChars ++ quoteJSONChars e ++ ['}']) {} []
      = some ({ Error := e }, ["error"], []) := by
  rw [parseMembers]
  have hkey := parseStringLit_errorKey (':' :: (quoteJSONChars e ++ ['}']))
  have hval := parseStringLit_escaped e.data ['}']
  simp only [errorKeyChars, quoteJSONChars, List.cons_append, List.nil_append,
    List.append_assoc] at hkey hval ⊢
  rw [hkey]
  simp only [List.singleton_append] at hval ⊢
  rw [hval]
  simp [mk_data]

theorem marshal_data_chars (d : String) (hd : d ≠ "") :
    marshalResponseChars { Data := d }
      = '{' :: (dataKeyChars ++ quoteJSONChars d ++ ['}']) := by
  simp [marshalResponseChars, hd, List.intercalate]

theorem marshal_error_chars (e : String) (he : e ≠ "") :
    marshalResponseChars { Error := e }
      = '{' :: (errorKeyChars ++ quoteJSONChars e ++ ['}']) := by
  simp [marshalResponseChars, he, List.intercalate]

theorem unmarshal_marshal_data (d : String) (hd : d ≠ "") :
    unmarshalResponse (marshalResponse { Data := d }) = some { Data := d } := by
  have hpm := fun f => parseMembers_singleData f d
  simp only [dataKeyChars, quoteJSONChars, List.cons_append, List.nil_append,
    List.append_assoc] at hpm
  rw [unmarshalResponse.eq_def,
    show (marshalResponse { Data := d }).data = marshalResponseChars { Data := d } from rfl,
    marshal_data_chars d hd]
  simp only [dataKeyChars, quoteJSONChars, List.cons_append, List.nil_append,
    List.append_assoc]
  simp [hpm]

theorem unmarshal_marshal_error (e : String) (he : e ≠ "") :
    unmarshalResponse (marshalResponse { Error := e }) = some { Error := e } := by
  have hpm := fun f => parseMembers_singleError f e
  simp only [errorKeyChars, quoteJSONChars, List.cons_append, List.nil_append,
    List.append_assoc] at hpm
  rw [unmarshalResponse.eq_def,
    show (marshalResponse { Error := e }).data = marshalResponseChars { Error := e } from rfl,
    marshal_error_chars e he]
  simp only [errorKeyChars, quoteJSONChars, List.cons_append, List.nil_append,
    List.append_assoc]
  simp [hpm]

theorem jsonKeys_marshal_data (d : String) (hd : d ≠ "") :
    jsonKeys (marshalResponse { Data := d }) = some ["data"] := by
  have hpm := fun f => parseMembers_singleData f d
  simp only [dataKeyChars, quoteJSONChars, List.cons_append, List.nil_append,
    List.append_assoc] at hpm
  rw [jsonKeys.eq_def,
    show (marshalResponse { Data := d }).data = marshalResponseChars { Data := d } from rfl,
    marshal_data_chars d hd]
  simp only [dataKeyChars, quoteJSONChars, List.cons_append, List.nil_append,
    List.append_assoc]
  simp [hpm]

theorem jsonKeys_marshal_error (e : String) (he : e ≠ "") :
    jsonKeys (marshalResponse { Error := e }) = some ["error"] := by
  have hpm := fun f => parseMembers_singleError f e
  simp only [errorKeyChars, quoteJSONChars, List.cons_append, List.nil_append,
    List.append_assoc] at hpm
  rw [jsonKeys.eq_def,
    show (marshalResponse { Error := e }).data = marshalResponseChars { Error := e } from rfl,
    marshal_error_chars e he]
  simp only [errorKeyChars, quoteJSONChars, List.cons_append, List.nil_append,
    List.append_assoc]
  simp [hpm]

/-! ## The request-handling model -/

/-- One line written to the process-wide `log` sink.  The two shapes match
the two `log.Printf` calls of src/main.go: `panic: ...` with
method, ip (RemoteAddr) and url path (src/main.go lines 74-78), and
`access_log: ...` with additionally the elapsed time (lines 94-99).
The arguments are kept structured rather than formatted into one string. -/
inductive LogLine where
  | panicLine (method ip url : String)
  | accessLine (method ip url : String) (elapsed : Nat)
deriving DecidableEq, Repr

/-- Whether a log line is an access-log line. -/
def LogLine.isAccessLine : LogLine → Bool
  | .accessLine _ _ _ _ => true
  | .panicLine _ _ _ => false

/-- An incoming HTTP request together with the ambient observations the
handlers make while serving it: `nowFormatted` is the value of
`time.Now().Format(time.RFC1123Z)` at handling time, and `elapsed` is the
value `time.Since(start)` observed by the access-log middleware.  Go
computes `time.Since` as the difference of two monotonic-clock readings
taken before and after the inner handler runs, so the duration can never be
negative; typing it as `Nat` records that clock guarantee.  `logPrintfFault`
injects the possibility,
contemplated by the spec, that the `log.Printf` call of the access-log
middleware itself raises a runtime fault (`none` means it completes
normally, the case in any ordinary run). -/
structure Request where
  method : String
  remoteAddr : String
  path : String
  nowFormatted : String
  elapsed : Nat
  logPrintfFault : Option String := none

/-- The state of an `http.ResponseWriter`: the status code committed by the
first `WriteHeader` or `Write` call, if any, and the list of body chunks
written so far. -/
structure ResponseWriter where
  statusOut : Option Nat := none
  body : List String := []
deriving DecidableEq, Repr

/-- `WriteHeader`: commits the status code if none is committed yet; a
second call is ignored (the net/http package logs a superfluous-call warning
and changes nothing). -/
def ResponseWriter.writeHeader (w : ResponseWriter) (code : Nat) : ResponseWriter :=
  { w with statusOut := some (w.statusOut.getD code) }

/-- `Write`: if no status is committed yet, net/http first performs an
implicit `WriteHeader(200)`; then the chunk is appended to the body. -/
def ResponseWriter.write (w : ResponseWriter) (chunk : String) : ResponseWriter :=
  { statusOut := some (w.statusOut.getD 200), body := w.body ++ [chunk] }

/-- The status code actually transmitted on the wire once the response is
sent (200 when nothing committed one explicitly). -/
def ResponseWriter.sentStatus (w : ResponseWriter) : Nat :=
  w.statusOut.getD 200

/-- The observable outcome of running a handler: the final response-writer
state, the `log` sink lines, the `fmt.Println` stdout lines, and — when the
handler's frame is unwinding — the propagating runtime fault (its `%v`
rendering). -/
structure Effect where
  writer : ResponseWriter
  logs : List LogLine
  stdout : List String
  panicking : Option String
deriving DecidableEq, Repr

/-- The number of access-log lines in an effect's log output. -/
def Effect.accessLogCount (e : Effect) : Nat :=
  (e.logs.filter LogLine.isAccessLine).length

/-- An `http.Handler`: `ServeHTTP(w, r)` as a state transformer. -/
def Handler : Type := Request → ResponseWriter → Effect

/-- The Go template `helloMsgTmpl` applied to the formatted current time
(src/main.go lines 11 and 42-45). -/
def helloMsg (t : String) : String :=
  "Hello, from service. Today is " ++ t

/-- The error produced by `fmt.Errorf("метод %q не поддерживается",
r.Method)` (src/main.go line 52).  `%q` surrounds the method with double
quotes; net/http rejects requests whose method is not a valid token, so the
quoting never needs to escape anything. -/
def methodNotSupportedMsg (m : String) : String :=
  "метод \"" ++ m ++ "\" не поддерживается"

/-- The body of `helloHandler` before its deferred function runs
(src/main.go lines 16-18 and 38-55): the values of the variables `err`,
`status` and `data` at function exit.  On GET, the envelope with the hello
message is marshalled; `json.Marshal` of a struct holding only strings
cannot fail, so the `err != nil` branch after it (which would set status
500) is unreachable and `err` stays nil.  On any other method, `err` is set
to the unsupported-method error and `status` to 501
(`http.StatusNotImplemented`). -/
def helloHandlerCore (r : Request) : Option String × Nat × String :=
  if r.method = "GET" then
    (none, 0, marshalResponse { Data := helloMsg r.nowFormatted })
  else
    (some (methodNotSupportedMsg r.method), 501, "")

/-- The deferred function of `helloHandler` (src/main.go lines 21-36),
reading the final values of `err`, `status` and `data`: if `err` is set, it
marshals the error envelope (again infallible for a string field; the
re-assignment of `status` to 500 on a marshal failure is unreachable) and
calls `w.Write` without ever calling `w.WriteHeader` — so the status sent is
the implicit 200; if `err` is nil it calls `w.WriteHeader(http.StatusOK)`
and then writes `data`.  The `status` variable is never passed to
`WriteHeader` on any path. -/
def helloHandlerDefer (st : Option String × Nat × String)
    (w : ResponseWriter) : ResponseWriter :=
  match st.1 with
  | some errMsg => w.write (marshalResponse { Error := errMsg })
  | none => (w.writeHeader 200).write st.2.2

/-- `helloHandler` (src/main.go lines 14-56): prints "hello handler",
computes the switch, and lets the deferred function write the response.  It
writes no log lines and raises no fault. -/
def helloHandler : Handler := fun r w =>
  { writer := helloHandlerDefer (helloHandlerCore r) w
    logs := []
    stdout := ["hello handler"]
    panicking := none }

/-- The `http.ServeMux` default not-found handler: `http.NotFound` calls
`http.Error(w, "404 page not found", 404)`, one `WriteHeader(404)` followed
by one `Write` of the message and a newline. -/
def notFoundHandler : Handler := fun _ w =>
  { writer := (w.writeHeader 404).write "404 page not found\n"
    logs := []
    stdout := []
    panicking := none }

/-- The mux built in `main` (src/main.go lines 111-114): the single exact
pattern "/hello" is registered to `helloHandler`; every other path gets the
mux's not-found behaviour.  (The trailing-slash redirection of `ServeMux`
concerns only subtree patterns and does not arise for this route table.) -/
def serveMux : Handler := fun r w =>
  if r.path = "/hello" then helloHandler r w else notFoundHandler r w

/-- The `accessLog` middleware (src/main.go lines 87-101): print
"access_log middleware", record the start time, run the inner handler, then
`log.Printf` one access_log line with method, RemoteAddr, url path and
`time.Since(start)`.  The `log.Printf` call sits after `next.ServeHTTP`
without any `defer`, so if the inner handler's frame is unwinding with a
fault the line is never emitted and the fault keeps propagating; and if the
`log.Printf` call itself faults (the injected `logPrintfFault`), the line is
likewise not emitted and the fault propagates out of this frame. -/
def accessLog (next : Handler) : Handler := fun r w =>
  let e := next r w
  match e.panicking with
  | some _ => { e with stdout := "access_log middleware" :: e.stdout }
  | none =>
    match r.logPrintfFault with
    | some msg =>
      { e with stdout := "access_log middleware" :: e.stdout, panicking := some msg }
    | none =>
      { e with
        stdout := "access_log middleware" :: e.stdout
        logs := e.logs ++ [LogLine.accessLine r.method r.remoteAddr r.path r.elapsed] }

/-- The `recovery` middleware (src/main.go lines 59-84): print "panic
middleware", run the inner handler under a deferred guard that prints
"panic middleware defer" and calls `recover()`.  If the inner handler's
frame is unwinding with a fault, the guard intercepts it: it marshals the
envelope with the `%v` rendering of the fault (`_` discards the marshal
error), calls `WriteHeader(500)` and then `Write`s the body, and emits one
panic log line with method, RemoteAddr and url path.  On normal completion
nothing is added. -/
def recovery (next : Handler) : Handler := fun r w =>
  let e := next r w
  match e.panicking with
  | none =>
    { e with stdout := "panic middleware" :: (e.stdout ++ ["panic middleware defer"]) }
  | some msg =>
    { writer := (e.writer.writeHeader 500).write (marshalResponse { Error := msg })
      logs := e.logs ++ [LogLine.panicLine r.method r.remoteAddr r.path]
      stdout := "panic middleware" :: (e.stdout ++ ["panic middleware defer"])
      panicking := none }

/-- The syntax of the handler chain a composition root can build from this
program's pieces: the route dispatch (`mux`), wrapped by zero or more
applications of the two middlewares. -/
inductive HandlerExpr where
  | routeDispatch
  | wrapAccessLog (inner : HandlerExpr)
  | wrapRecovery (inner : HandlerExpr)
deriving DecidableEq, Repr

/-- The handler a chain expression denotes. -/
def HandlerExpr.run : HandlerExpr → Handler
  | .routeDispatch => serveMux
  | .wrapAccessLog h => accessLog h.run
  | .wrapRecovery h => recovery h.run

/-- The one handler chain built by `main` (src/main.go lines 117-118):
`handler := accessLog(mux)` and then `handler = recovery(handler)`, so the
listener is bound to `recovery(accessLog(mux))`. -/
def mainChain : HandlerExpr :=
  HandlerExpr.wrapRecovery (HandlerExpr.wrapAccessLog HandlerExpr.routeDispatch)

/-- The handler bound to the listener by `http.ListenAndServe(":8080",
handler)` (src/main.go line 121). -/
def mainHandler : Handler := mainChain.run

/-- The wiring of main's two middleware lines, abstracted over the route
dispatch they wrap. -/
def composedChain (inner : Handler) : Handler := recovery (accessLog inner)

/-- A route handler that raises a runtime fault without having written
anything, standing for any inner handler hitting e.g. an out-of-range index
(the recovery middleware's own comment class of errors). -/
def faultingDispatch : Handler := fun _ w =>
  { writer := w, logs := [], stdout := [], panicking := some "runtime error: index out of range" }

/-- A fresh response writer, as handed to the chain for a new request. -/
def emptyWriter : ResponseWriter := {}

/-- A concrete GET request to /hello. -/
def req1 : Request :=
  { method := "GET", remoteAddr := "127.0.0.1:51134", path := "/hello"
    nowFormatted := "Sat, 11 Oct 2025 12:00:00 +0000", elapsed := 42 }

/-- A concrete POST request to /hello. -/
def postReq : Request := { req1 with method := "POST" }

/-- A concrete request during whose handling the access-log middleware's own
`log.Printf` call raises a fault. -/
def faultReq : Request := { req1 with logPrintfFault := some "log sink failure" }

theorem serveMux_no_panic (r : Request) (w : ResponseWriter) :
    (serveMux r w).panicking = none := by
  unfold serveMux; split_ifs <;> rfl

theorem serveMux_no_logs (r : Request) (w : ResponseWriter) :
    (serveMux r w).logs = [] := by
  unfold serveMux; split_ifs <;> rfl

theorem mainHandler_eq : mainHandler = composedChain serveMux := rfl

theorem helloMsg_ne_empty (t : String) : helloMsg t ≠ "" := by
  intro h
  have h2 := congrArg String.length h
  rw [helloMsg, String.length_append] at h2
  simp at h2
  exact absurd h2.1 (by decide)

theorem methodNotSupportedMsg_ne_empty (m : String) : methodNotSupportedMsg m ≠ "" := by
  intro h
  have h2 := congrArg String.length h
  rw [methodNotSupportedMsg, String.length_append, String.length_append] at h2
  simp at h2
  exact absurd h2.1.1 (by decide)

/-! ## The claims -/

/-- C1, counterexample: the chain `main` builds is not
`accessLog(recovery(route dispatch))` — neither syntactically (the wrapping
order is the reverse) nor behaviourally (on a request during which the
access-log middleware's own log call faults, the two compositions produce
different outcomes). -/
theorem c1_counterexample :
    mainChain ≠ HandlerExpr.wrapAccessLog (HandlerExpr.wrapRecovery HandlerExpr.routeDispatch) ∧
    mainHandler faultReq emptyWriter
      ≠ (HandlerExpr.wrapAccessLog (HandlerExpr.wrapRecovery HandlerExpr.routeDispatch)).run
          faultReq emptyWriter :=
  ⟨by decide, by decide⟩

/-- C1 (corrected): the composition root builds exactly one handler chain in
which the recovery middleware is the outermost wrapper, the access-log
middleware is nested inside it, and route dispatch is innermost — the
handler bound to the listener equals recovery(accessLog(route_dispatch)). -/
theorem c1_composition_order :
    mainChain = HandlerExpr.wrapRecovery (HandlerExpr.wrapAccessLog HandlerExpr.routeDispatch) ∧
    mainHandler = recovery (accessLog serveMux) :=
  ⟨rfl, rfl⟩

/-- C2, counterexample: a request whose route dispatch raises a runtime
fault is recovered by the chain main builds (no fault escapes and the
500 envelope is written), yet zero access-log lines are emitted. -/
theorem c2_counterexample :
    Effect.accessLogCount (composedChain faultingDispatch req1 emptyWriter) = 0 ∧
    (composedChain faultingDispatch req1 emptyWriter).panicking = none ∧
    (composedChain faultingDispatch req1 emptyWriter).writer.sentStatus = 500 :=
  ⟨by decide, by decide, by decide⟩

/-- C2 (corrected): when the downstream handling completes without a fault
(and the log call itself does not fault), exactly one access-log line is
emitted — carrying method, origin, path and the non-negative elapsed
duration (`time.Since` on Go's monotonic clock, typed `Nat` in the model) —
and it is emitted after the full downstream chain completes (appended after
the inner handler's own log output); but when the inner route dispatch
raises a runtime fault, the chain recovers it while emitting no access-log
line, because recovery wraps the access-log middleware rather than the
reverse. -/
theorem c2_access_logging (inner : Handler) (r : Request) (w : ResponseWriter)
    (hlog : r.logPrintfFault = none) :
    ((mainHandler r w).logs
        = [LogLine.accessLine r.method r.remoteAddr r.path r.elapsed] ∧
      (0 : Int) ≤ (r.elapsed : Int)) ∧
    ((inner r w).panicking = none →
      (composedChain inner r w).logs
        = (inner r w).logs
            ++ [LogLine.accessLine r.method r.remoteAddr r.path r.elapsed]) ∧
    (∀ msg, (inner r w).panicking = some msg →
      Effect.accessLogCount (composedChain inner r w)
          = Effect.accessLogCount (inner r w) ∧
      (composedChain inner r w).panicking = none) := by
  refine ⟨⟨?_, by omega⟩, ?_, ?_⟩
  · have hp := serveMux_no_panic r w
    have hl := serveMux_no_logs r w
    show (recovery (accessLog serveMux) r w).logs = _
    simp [recovery, accessLog, hp, hl, hlog]
  · intro hnp
    simp [composedChain, recovery, accessLog, hnp, hlog]
  · intro msg hp
    simp [composedChain, recovery, accessLog, hp, Effect.accessLogCount,
      LogLine.isAccessLine]

/-- C2, witness: at a concrete fault-free GET request the chain's log output
is exactly one access-log line with the request's method, origin, path and
elapsed duration. -/
theorem c2_access_logging_witness :
    (mainHandler req1 emptyWriter).logs
      = [LogLine.accessLine "GET" "127.0.0.1:51134" "/hello" 42] :=
  (c2_access_logging faultingDispatch req1 emptyWriter rfl).1.1

/-- C3, counterexample: the body answered to `POST /hello` is not the
English envelope the claim quotes. -/
theorem c3_counterexample :
    (mainHandler postReq emptyWriter).writer.body
      ≠ ["\x7b\"error\":\"method \\\"POST\\\" not supported\"\x7d"] := by
  decide

/-- C3 (corrected): for every request to /hello with a method other than
GET, the response body is the serialized envelope whose error field is
`метод "<METHOD>" не поддерживается` (the Russian rendering of `method
"<METHOD>" not supported`): the error field is non-empty, contains the
method name, and the data field is absent (empty after parsing). -/
theorem c3_unsupported_method (m ip t : String) (el : Nat) (hm : m ≠ "GET") :
    (mainHandler ⟨m, ip, "/hello", t, el, none⟩ emptyWriter).writer.body
        = [marshalResponse { Error := methodNotSupportedMsg m }] ∧
    methodNotSupportedMsg m ≠ "" ∧
    (∃ pre suf, methodNotSupportedMsg m = pre ++ m ++ suf) ∧
    unmarshalResponse (marshalResponse { Error := methodNotSupportedMsg m })
        = some { Data := "", Error := methodNotSupportedMsg m } := by
  refine ⟨?_, methodNotSupportedMsg_ne_empty m, ⟨"метод \"", "\" не поддерживается", rfl⟩, ?_⟩
  · simp [mainHandler, mainChain, HandlerExpr.run, recovery, accessLog, serveMux,
      helloHandler, helloHandlerCore, helloHandlerDefer, ResponseWriter.write,
      ResponseWriter.writeHeader, emptyWriter, hm]
  · exact unmarshal_marshal_error _ (methodNotSupportedMsg_ne_empty m)

/-- C3, witness: the concrete POST request gets the Russian error
envelope. -/
theorem c3_unsupported_method_witness :
    (mainHandler ⟨"POST", "127.0.0.1:51134", "/hello",
        "Sat, 11 Oct 2025 12:00:00 +0000", 42, none⟩ emptyWriter).writer.body
      = [marshalResponse { Error := methodNotSupportedMsg "POST" }] :=
  (c3_unsupported_method "POST" "127.0.0.1:51134"
    "Sat, 11 Oct 2025 12:00:00 +0000" 42 (by decide)).1

/-- C4 (confirmed): in the unsupported-method path of `helloHandler` the
status variable is assigned 501, but no path passes it to `WriteHeader`, so
the HTTP status actually sent is 200.  (The serialization-error paths that
would assign 500 are unreachable: `json.Marshal` of a struct holding only
string fields cannot fail.) -/
theorem c4_status_defect (m ip t : String) (el : Nat) (hm : m ≠ "GET") :
    (helloHandlerCore ⟨m, ip, "/hello", t, el, none⟩).2.1 = 501 ∧
    (mainHandler ⟨m, ip, "/hello", t, el, none⟩ emptyWriter).writer.sentStatus = 200 := by
  constructor
  · simp [helloHandlerCore, hm]
  · simp [mainHandler, mainChain, HandlerExpr.run, recovery, accessLog, serveMux,
      helloHandler, helloHandlerCore, helloHandlerDefer, ResponseWriter.write,
      ResponseWriter.writeHeader, ResponseWriter.sentStatus, emptyWriter, hm]

/-- C4, witness: at the concrete POST request, status 501 is assigned and
status 200 is sent. -/
theorem c4_status_defect_witness :
    (helloHandlerCore ⟨"POST", "127.0.0.1:51134", "/hello",
        "Sat, 11 Oct 2025 12:00:00 +0000", 42, none⟩).2.1 = 501 ∧
    (mainHandler ⟨"POST", "127.0.0.1:51134", "/hello",
        "Sat, 11 Oct 2025 12:00:00 +0000", 42, none⟩ emptyWriter).writer.sentStatus = 200 :=
  c4_status_defect "POST" "127.0.0.1:51134"
    "Sat, 11 Oct 2025 12:00:00 +0000" 42 (by decide)

/-- C5 (confirmed): whatever handler the recovery middleware wraps, if that
handler's execution raises a runtime fault, the fault does not escape the
middleware: it performs `WriteHeader(500)` followed by writing the
serialized error envelope (so the sent status is 500 whenever the inner
handler had not already committed a status), and emits a structured panic
log line carrying method, origin and path. -/
theorem c5_recovery_intercepts (next : Handler) (r : Request) (w : ResponseWriter)
    (msg : String) (hp : (next r w).panicking = some msg) :
    (recovery next r w).panicking = none ∧
    (recovery next r w).writer
        = ((next r w).writer.writeHeader 500).write (marshalResponse { Error := msg }) ∧
    ((next r w).writer.statusOut = none → (recovery next r w).writer.sentStatus = 500) ∧
    (recovery next r w).logs
        = (next r w).logs ++ [LogLine.panicLine r.method r.remoteAddr r.path] := by
  refine ⟨?_, ?_, ?_, ?_⟩
  · simp [recovery, hp]
  · simp [recovery, hp]
  · intro hw
    simp [recovery, hp, ResponseWriter.writeHeader, ResponseWriter.write,
      ResponseWriter.sentStatus, hw]
  · simp [recovery, hp]

/-- C5, witness: the concrete faulting dispatch is intercepted. -/
theorem c5_recovery_intercepts_witness :
    (recovery faultingDispatch req1 emptyWriter).panicking = none :=
  (c5_recovery_intercepts faultingDispatch req1 emptyWriter
    "runtime error: index out of range" rfl).1

/-- C6 (confirmed): for every request to /hello with method GET, the
response status is 200 and the body is the serialized envelope whose data
field is the non-empty string `Hello, from service. Today is <t>` — `<t>`
standing for the value of `time.Now().Format(time.RFC1123Z)`, RFC 1123 with
numeric timezone — and whose error field is absent (empty after parsing). -/
theorem c6_hello_get (ip t : String) (el : Nat) :
    (mainHandler ⟨"GET", ip, "/hello", t, el, none⟩ emptyWriter).writer.sentStatus = 200 ∧
    (mainHandler ⟨"GET", ip, "/hello", t, el, none⟩ emptyWriter).writer.body
        = [marshalResponse { Data := helloMsg t }] ∧
    helloMsg t ≠ "" ∧
    unmarshalResponse (marshalResponse { Data := helloMsg t })
        = some { Data := helloMsg t, Error := "" } := by
  refine ⟨?_, ?_, helloMsg_ne_empty t, ?_⟩
  · simp [mainHandler, mainChain, HandlerExpr.run, recovery, accessLog, serveMux,
      helloHandler, helloHandlerCore, helloHandlerDefer, ResponseWriter.write,
      ResponseWriter.writeHeader, ResponseWriter.sentStatus, emptyWriter]
  · simp [mainHandler, mainChain, HandlerExpr.run, recovery, accessLog, serveMux,
      helloHandler, helloHandlerCore, helloHandlerDefer, ResponseWriter.write,
      ResponseWriter.writeHeader, emptyWriter]
  · exact unmarshal_marshal_data _ (helloMsg_ne_empty t)

/-- C7, counterexample: at the concrete request during whose handling the
access-log middleware's own log call faults, the fault does not escape the
request-handling stack — the recovery middleware, which wraps the access-log
middleware in this composition, catches it and logs the panic line. -/
theorem c7_counterexample :
    (mainHandler faultReq emptyWriter).panicking = none ∧
    (mainHandler faultReq emptyWriter).logs
      = [LogLine.panicLine "GET" "127.0.0.1:51134" "/hello"] :=
  ⟨by decide, by decide⟩

/-- C7 (corrected): a fault raised inside the access-log middleware's own
logic (for example by the logging call after the inner handler returns) is
caught by the recovery middleware — which wraps the access-log middleware in
this composition — and does not escape the request-handling stack; the
recovery middleware's panic line is the only line logged. -/
theorem c7_accesslog_fault_caught (r : Request) (w : ResponseWriter) (msg : String)
    (h : r.logPrintfFault = some msg) :
    (mainHandler r w).panicking = none ∧
    (mainHandler r w).logs = [LogLine.panicLine r.method r.remoteAddr r.path] := by
  have hp := serveMux_no_panic r w
  have hl := serveMux_no_logs r w
  constructor <;>
    simp [mainHandler, mainChain, HandlerExpr.run, recovery, accessLog, hp, hl, h]

/-- C7, witness: the concrete injected log-call fault is caught. -/
theorem c7_accesslog_fault_caught_witness :
    (mainHandler faultReq emptyWriter).panicking = none :=
  (c7_accesslog_fault_caught faultReq emptyWriter "log sink failure" rfl).1

/-- C8 (confirmed): for every handler wrapped by the recovery middleware and
every request — provided the handler writes exactly once when it completes
normally and has not completed its write when it faults, which is the
claim's own proviso and holds for this repository's handlers — exactly one
response is written: the wrapped handler's own write when it completes
normally (the middleware adds nothing), or the interception path's write
when it faults, never both. -/
theorem c8_exactly_one_write (next : Handler) (r : Request)
    (h1 : (next r emptyWriter).panicking = none →
      (next r emptyWriter).writer.body.length = 1)
    (h2 : ∀ msg, (next r emptyWriter).panicking = some msg →
      (next r emptyWriter).writer.body = []) :
    (recovery next r emptyWriter).writer.body.length = 1 ∧
    ((next r emptyWriter).panicking = none →
      (recovery next r emptyWriter).writer = (next r emptyWriter).writer) ∧
    (∀ msg, (next r emptyWriter).panicking = some msg →
      (recovery next r emptyWriter).writer.body
        = [marshalResponse { Error := msg }]) := by
  refine ⟨?_, ?_, ?_⟩
  · cases hp : (next r emptyWriter).panicking with
    | none =>
      have := h1 hp
      simp [recovery, hp, this]
    | some msg =>
      have hb := h2 msg hp
      simp [recovery, hp, ResponseWriter.write, ResponseWriter.writeHeader, hb]
  · intro hp
    simp [recovery, hp]
  · intro msg hp
    have hb := h2 msg hp
    simp [recovery, hp, ResponseWriter.write, ResponseWriter.writeHeader, hb]

/-- C8, witness: the endpoint handler under recovery writes exactly one
response at the concrete GET request. -/
theorem c8_exactly_one_write_witness :
    (recovery helloHandler req1 emptyWriter).writer.body.length = 1 :=
  (c8_exactly_one_write helloHandler req1 (fun _ => by decide)
    (fun msg h => by simp [helloHandler] at h)).1

/-- C9 (confirmed): for every valid envelope holding a single non-empty
field, serializing and then parsing yields the original field values
unchanged. -/
theorem c9_roundtrip (x y : String) (hx : x ≠ "") (hy : y ≠ "") :
    unmarshalResponse (marshalResponse { Data := x }) = some { Data := x } ∧
    unmarshalResponse (marshalResponse { Error := y }) = some { Error := y } :=
  ⟨unmarshal_marshal_data x hx, unmarshal_marshal_error y hy⟩

/-- C9, witness: concrete round trips. -/
theorem c9_roundtrip_witness :
    unmarshalResponse (marshalResponse { Data := "x" }) = some { Data := "x" } ∧
    unmarshalResponse (marshalResponse { Error := "y" }) = some { Error := "y" } :=
  c9_roundtrip "x" "y" (by decide) (by decide)

/-- C10 (confirmed): thanks to the `omitempty` tags, serialization never
emits a key for an empty field — a success body's only key is `data`, an
error body's only key is `error`, and the envelope with both fields empty
serializes to exactly the empty object. -/
theorem c10_omitempty (d e : String) :
    (d ≠ "" → jsonKeys (marshalResponse { Data := d }) = some ["data"]) ∧
    (e ≠ "" → jsonKeys (marshalResponse { Error := e }) = some ["error"]) ∧
    marshalResponse { Data := "", Error := "" } = "\x7b\x7d" :=
  ⟨fun hd => jsonKeys_marshal_data d hd,
   fun he => jsonKeys_marshal_error e he,
   by decide⟩

/-- C10, witness: concrete key sets. -/
theorem c10_omitempty_witness :
    jsonKeys (marshalResponse { Data := "x" }) = some ["data"] ∧
    jsonKeys (marshalResponse { Error := "y" }) = some ["error"] :=
  ⟨(c10_omitempty "x" "y").1 (by decide), (c10_omitempty "x" "y").2.1 (by decide)⟩

end GoWebServer
